import Mathlib

/-!
Shallow embedding of the Smart Orifice Flow System firmware
(`Final Main Codes/Arduino-Code/Main_Firmware.ino`).  The C++ `float`
values are modelled as exact rationals, `long`/`int` values as `ℤ`.
Real-valued quantities that involve `sqrt`/`π` (flow-rate formula)
are modelled over `ℝ`.
-/

namespace SmartOrifice

/-- Sensor calibration constant `SENSOR_RAW_MIN` (firmware line 13). -/
def SENSOR_RAW_MIN : ℤ := 510

/-- Sensor calibration constant `SENSOR_RAW_MAX` (line 14). -/
def SENSOR_RAW_MAX : ℤ := 9230

/-- Maximum manometer height `H_MAX_METERS` (line 15). -/
def H_MAX_METERS : ℚ := 0.145

/-- Fluid density `FLUID_DENSITY` (line 23). -/
def FLUID_DENSITY : ℚ := 1000

/-- Manometer fluid density `MANOMETER_DENSITY` (line 24). -/
def MANOMETER_DENSITY : ℚ := 1.225

/-- EMA smoothing factor `EMA_ALPHA` (line 31). -/
def EMA_ALPHA : ℚ := 0.1

/-- Minimum height for flow detection `MIN_FLOW_HEIGHT` (line 34). -/
def MIN_FLOW_HEIGHT : ℚ := 0.001

/-- Hardware envelope lower bound `EXTREME_MIN` (line 37). -/
def EXTREME_MIN : ℤ := 0

/-- Hardware envelope upper bound `EXTREME_MAX` (line 38). -/
def EXTREME_MAX : ℤ := 15000

/-- Consecutive failures before fallback `MAX_FAILURES` (line 39). -/
def MAX_FAILURES : ℤ := 5

/-- Gravitational acceleration `GRAVITY` (line 71). -/
def GRAVITY : ℚ := 9.81

/-- Density difference `DENSITY_DIFF = FLUID_DENSITY - MANOMETER_DENSITY` (line 72). -/
def DENSITY_DIFF : ℚ := FLUID_DENSITY - MANOMETER_DENSITY

/-- The snapping lattice `HEIGHT_STEPS` (lines 46-63). -/
def HEIGHT_STEPS : List ℚ :=
  [0.000, 0.010, 0.020, 0.030, 0.040, 0.050, 0.060, 0.070,
   0.080, 0.090, 0.100, 0.110, 0.120, 0.130, 0.140, 0.145]

/-- C cast of a floating value to `long`: truncation toward zero. -/
def truncToLong (q : ℚ) : ℤ := if 0 ≤ q then ⌊q⌋ else ⌈q⌉

/-- Arduino `constrain(amt, low, high)` macro: `amt < low ? low : (amt > high ? high : amt)`. -/
def constrain (amt low high : ℚ) : ℚ :=
  if amt < low then low else if amt > high then high else amt

/-- Body of `validateReading` (lines 291-308), parameterized by the
calibration range so that non-default configurations can be stated.
The jump check is only performed when the current filter state is
positive, and compares against the truncated (`long`-cast) filter value. -/
def validateReadingWith (rawMin rawMax : ℤ) (filteredReading : ℚ) (rawValue : ℤ) : Bool :=
  if rawValue < EXTREME_MIN ∨ rawValue > EXTREME_MAX then false
  else if filteredReading > 0 then
    if |rawValue - truncToLong filteredReading| > truncToLong (((rawMax - rawMin : ℤ) : ℚ) * 0.5)
    then false else true
  else true

/-- The firmware's `validateReading` (lines 291-308) at the shipped calibration. -/
def validateReading (filteredReading : ℚ) (rawValue : ℤ) : Bool :=
  validateReadingWith SENSOR_RAW_MIN SENSOR_RAW_MAX filteredReading rawValue

/-- Validation predicate written from the SPEC's words (claim C3):
bounds check plus unconditional rate-of-change check
`|raw - filteredReading| ≤ 0.5 * (rawMax - rawMin)`.
Used only to compare with the source's `validateReading`. -/
def validateReadingSpec (filteredReading : ℚ) (rawValue : ℤ) : Bool :=
  decide (EXTREME_MIN ≤ rawValue ∧ rawValue ≤ EXTREME_MAX ∧
    |(rawValue : ℚ) - filteredReading| ≤ 0.5 * ((SENSOR_RAW_MAX - SENSOR_RAW_MIN : ℤ) : ℚ))

/-- The loop body of `snapToRealisticValue` (lines 319-326): fold over the
remaining lattice entries carrying `(minDifference, nearestValue)`. -/
def snapAux (calculatedHeight : ℚ) : List ℚ → ℚ → ℚ → ℚ × ℚ
  | [], minDifference, nearestValue => (minDifference, nearestValue)
  | v :: rest, minDifference, nearestValue =>
      if |calculatedHeight - v| < minDifference then snapAux calculatedHeight rest |calculatedHeight - v| v
      else snapAux calculatedHeight rest minDifference nearestValue

/-- The firmware's `snapToRealisticValue` (lines 315-329): linear scan with
initial sentinel `minDifference = 1000.0` and `nearestValue = calculatedHeight`. -/
def snapToRealisticValue (calculatedHeight : ℚ) : ℚ :=
  (snapAux calculatedHeight HEIGHT_STEPS 1000 calculatedHeight).2

/-- Height mapping of the main loop (lines 177-183), parameterized by the
calibration range and maximum height: clamp, normalize, scale. -/
def mapToHeightWith (rawMin rawMax : ℤ) (hMax : ℚ) (filteredReading : ℚ) : ℚ :=
  (constrain filteredReading (rawMin : ℚ) (rawMax : ℚ) - (rawMin : ℚ)) /
    ((rawMax - rawMin : ℤ) : ℚ) * hMax

/-- Height mapping at the shipped calibration (lines 177-183). -/
def mapToHeight : ℚ → ℚ :=
  mapToHeightWith SENSOR_RAW_MIN SENSOR_RAW_MAX H_MAX_METERS

/-- One iteration of `stabilizeFilter`'s loop (lines 270-279): the EMA
update is applied whenever `reading >= 0`. -/
def stabilizeStep (filteredReading : ℚ) (reading : ℤ) : ℚ :=
  if 0 ≤ reading then EMA_ALPHA * (reading : ℚ) + (1 - EMA_ALPHA) * filteredReading
  else filteredReading

/-- The firmware's `stabilizeFilter` (lines 269-280) over a list of raw samples. -/
def stabilizeFilter (filteredReading : ℚ) (readings : List ℤ) : ℚ :=
  readings.foldl stabilizeStep filteredReading

/-- The firmware's `initializeSystem` (lines 235-263), parameterized by the
calibration range: seed the filter from the initial reading if it validates
(against the startup filter state `0`), else from the range midpoint, then
stabilize.  The `Option` result models a fatal-abort path: `none` would mean
the system refuses to proceed to the measurement loop.  The source contains
no abort path, so the embedding always returns `some`. -/
def initializeSystemWith (rawMin rawMax : ℤ) (initialValue : ℤ) (samples : List ℤ) : Option ℚ :=
  let seeded : ℚ :=
    if validateReadingWith rawMin rawMax 0 initialValue then (initialValue : ℚ)
    else (((rawMin : ℚ) + (rawMax : ℚ)) / 2)
  some (stabilizeFilter seeded samples)

/-- The firmware's `initializeSystem` at the shipped calibration. -/
def initializeSystem (initialValue : ℤ) (samples : List ℤ) : Option ℚ :=
  initializeSystemWith SENSOR_RAW_MIN SENSOR_RAW_MAX initialValue samples

/-- Global mutable state of the firmware (lines 95-98). -/
structure LoopState where
  filteredReading : ℚ
  lastValidHeight : ℚ
  failureCount : ℤ
  inFallbackMode : Bool
deriving DecidableEq, Repr

/-- Per-cycle reported values (the `DerivedFrame` of the spec): locals of
`loop` (lines 155-160) as computed by one iteration. -/
structure CycleOutput where
  isValid : Bool
  heightCalculated : ℚ
  heightSnapped : ℚ
  pressureDiff : ℚ
deriving DecidableEq, Repr

/-- One iteration of the firmware's `loop` (lines 152-225): returns the new
global state together with the reported values of the cycle. -/
def loopCycle (s : LoopState) (rawValue : ℤ) : LoopState × CycleOutput :=
  if validateReading s.filteredReading rawValue then
    let filtered := EMA_ALPHA * (rawValue : ℚ) + (1 - EMA_ALPHA) * s.filteredReading
    let heightCalculated := mapToHeight filtered
    let heightSnapped := snapToRealisticValue heightCalculated
    let p := DENSITY_DIFF * GRAVITY * heightSnapped
    (⟨filtered, heightSnapped, 0, false⟩,
     ⟨true, heightCalculated, heightSnapped, if p < 0 then 0 else p⟩)
  else
    let failureCount := s.failureCount + 1
    let inFallbackMode := s.inFallbackMode || decide (failureCount ≥ MAX_FAILURES)
    let heightSnapped := s.lastValidHeight
    let p := DENSITY_DIFF * GRAVITY * heightSnapped
    (⟨s.filteredReading, s.lastValidHeight, failureCount, inFallbackMode⟩,
     ⟨false, heightSnapped, heightSnapped, if p < 0 then 0 else p⟩)

/-- State transition of one loop iteration. -/
def step (s : LoopState) (rawValue : ℤ) : LoopState :=
  (loopCycle s rawValue).1

/-- Run the loop over a list of raw readings. -/
def run (s : LoopState) (raws : List ℤ) : LoopState :=
  raws.foldl step s

/-- State on entry to the first loop iteration: `lastValidHeight = 0`,
`failureCount = 0`, `inFallbackMode = false` (lines 95-98); the filter
value is whatever `initializeSystem` produced. -/
def initState (f0 : ℚ) : LoopState :=
  ⟨f0, 0, 0, false⟩

/-- A loop state is reachable if some initial filter seed and some sequence
of raw readings produces it. -/
def Reachable (s : LoopState) : Prop :=
  ∃ f0 raws, s = run (initState f0) raws

/-- Wide pipe diameter `PIPE_D1_METERS` (line 19). -/
def PIPE_D1_METERS : ℚ := 0.0254

/-- Narrow pipe diameter `PIPE_D2_METERS` (line 20). -/
def PIPE_D2_METERS : ℚ := 0.0127

/-- Discharge coefficient `DISCHARGE_COEFF` (line 28). -/
def DISCHARGE_COEFF : ℚ := 0.97

/-- Wide-section area `AREA_1 = PI * (D1/2)^2` (line 78). -/
noncomputable def AREA_1 : ℝ := Real.pi * ((PIPE_D1_METERS : ℝ) / 2) ^ 2

/-- Narrow-section area `AREA_2 = PI * (D2/2)^2` (line 79). -/
noncomputable def AREA_2 : ℝ := Real.pi * ((PIPE_D2_METERS : ℝ) / 2) ^ 2

/-- Squared area ratio `AREA_RATIO_SQ = (AREA_2/AREA_1)^2` (line 80). -/
noncomputable def AREA_RATIO_SQ : ℝ := (AREA_2 / AREA_1) ^ 2

/-- Pre-computed flow constant (lines 81-82). -/
noncomputable def FLOW_CONSTANT : ℝ :=
  (DISCHARGE_COEFF : ℝ) * AREA_2 *
    Real.sqrt ((2 / (FLUID_DENSITY : ℝ)) / (1 - AREA_RATIO_SQ))

/-- The firmware's `calculateFlowRate` (lines 337-357): zero below the
minimum-flow threshold, otherwise `FLOW_CONSTANT * sqrt(ΔP) * 1000` with the
pressure differential clamped at zero before the square root.  The height
and pressure arithmetic is exact rational; the square root lives in `ℝ`. -/
noncomputable def calculateFlowRate (height : ℚ) : ℝ :=
  if height < MIN_FLOW_HEIGHT then 0
  else
    FLOW_CONSTANT *
      Real.sqrt (((if DENSITY_DIFF * GRAVITY * height < 0 then 0
                   else DENSITY_DIFF * GRAVITY * height : ℚ) : ℝ)) * 1000

/-- Tail of `HEIGHT_STEPS` after its first (zero) entry; used to reason
about the scan of `snapToRealisticValue` past its first iteration. -/
def HEIGHT_STEPS_TAIL : List ℚ :=
  [0.010, 0.020, 0.030, 0.040, 0.050, 0.060, 0.070,
   0.080, 0.090, 0.100, 0.110, 0.120, 0.130, 0.140, 0.145]

/-- Computation rule for the absolute value of a rational, used to
evaluate the firmware's `abs` on concrete inputs. -/
lemma abs_ite_eval (q : ℚ) : |q| = if q < 0 then -q else q := by
  rcases lt_or_le q 0 with h | h
  · rw [if_pos h, abs_of_neg h]
  · rw [if_neg (not_lt.mpr h), abs_of_nonneg h]

/-- Unfolding rule of `snapAux` on the empty list. -/
lemma snapAux_nil (h m nv : ℚ) : snapAux h [] m nv = (m, nv) := rfl

/-- Unfolding rule of `snapAux` on a cons cell. -/
lemma snapAux_cons (h v m nv : ℚ) (l : List ℚ) :
    snapAux h (v :: l) m nv =
      if |h - v| < m then snapAux h l |h - v| v else snapAux h l m nv := rfl

/-- Decomposition of the snapping lattice into its head and tail. -/
lemma HEIGHT_STEPS_eq_cons : HEIGHT_STEPS = (0.000 : ℚ) :: HEIGHT_STEPS_TAIL := rfl

/-- Invariant of the `snapToRealisticValue` scan: starting from an
accumulator `(|h - v|, v)`, the fold returns the distance and value of
the first entry of `v :: l` achieving the minimal distance to `h`. -/
lemma snapAux_invariant (h : ℚ) (l : List ℚ) : ∀ v : ℚ,
    (snapAux h l |h - v| v).1 = |h - (snapAux h l |h - v| v).2| ∧
    (snapAux h l |h - v| v).1 ≤ |h - v| ∧
    ∃ l₁ l₂, v :: l = l₁ ++ (snapAux h l |h - v| v).2 :: l₂ ∧
      (∀ x ∈ l₁, (snapAux h l |h - v| v).1 < |h - x|) ∧
      (∀ x ∈ l₂, (snapAux h l |h - v| v).1 ≤ |h - x|) := by
  induction l with
  | nil =>
    intro v
    refine ⟨rfl, le_refl _, [], [], rfl, ?_, ?_⟩ <;> intro x hx <;> simp at hx
  | cons a as ih =>
    intro v
    rw [snapAux_cons]
    by_cases hc : |h - a| < |h - v|
    · rw [if_pos hc]
      obtain ⟨h1, h2, l₁, l₂, hdec, hl₁, hl₂⟩ := ih a
      refine ⟨h1, le_of_lt (lt_of_le_of_lt h2 hc), v :: l₁, l₂, ?_, ?_, hl₂⟩
      · rw [List.cons_append, ← hdec]
      · intro x hx
        rcases List.mem_cons.mp hx with hx | hx
        · rw [hx]; exact lt_of_le_of_lt h2 hc
        · exact hl₁ x hx
    · rw [if_neg hc]
      obtain ⟨h1, h2, l₁, l₂, hdec, hl₁, hl₂⟩ := ih v
      rcases l₁ with _ | ⟨b, l₁'⟩
      · simp only [List.nil_append] at hdec
        have hv2 : (snapAux h as |h - v| v).2 = v := (List.cons.injEq _ _ _ _ ▸ hdec).1.symm
        have hl2' : as = l₂ := (List.cons.injEq _ _ _ _ ▸ hdec).2
        refine ⟨h1, h2, [], a :: as, ?_, ?_, ?_⟩
        · rw [List.nil_append, hv2]
        · intro x hx; simp at hx
        · intro x hx
          rcases List.mem_cons.mp hx with hx | hx
          · rw [hx, h1, hv2]; exact not_lt.mp hc
          · exact hl₂ x (hl2' ▸ hx)
      · simp only [List.cons_append] at hdec
        have hbv : v = b := (List.cons.injEq _ _ _ _ ▸ hdec).1
        have has : as = l₁' ++ (snapAux h as |h - v| v).2 :: l₂ :=
          (List.cons.injEq _ _ _ _ ▸ hdec).2
        have hvlt : (snapAux h as |h - v| v).1 < |h - v| := by
          have hb := hl₁ b (List.mem_cons_self b l₁')
          rw [← hbv] at hb
          exact hb
        refine ⟨h1, h2, v :: a :: l₁', l₂, ?_, ?_, hl₂⟩
        · rw [List.cons_append, List.cons_append, ← has]
        · intro x hx
          rcases List.mem_cons.mp hx with hx | hx
          · rw [hx]; exact hvlt
          rcases List.mem_cons.mp hx with hx | hx
          · rw [hx]; exact lt_of_lt_of_le hvlt (not_lt.mp hc)
          · exact hl₁ x (hbv ▸ List.mem_cons_of_mem b hx)

/-- Whenever the input lies within `1000` of the lattice head, the snapped
value is a lattice element, every earlier entry is strictly farther from
the input, and every later entry is at least as far. -/
lemma snap_decomp (h : ℚ) (hh : |h| < 1000) :
    ∃ l₁ l₂, HEIGHT_STEPS = l₁ ++ snapToRealisticValue h :: l₂ ∧
      (∀ x ∈ l₁, |h - snapToRealisticValue h| < |h - x|) ∧
      (∀ x ∈ l₂, |h - snapToRealisticValue h| ≤ |h - x|) := by
  have hz : (0.000 : ℚ) = 0 := by norm_num
  have h0 : |h - 0.000| < 1000 := by rw [hz, sub_zero]; exact hh
  have hrw : snapToRealisticValue h
      = (snapAux h HEIGHT_STEPS_TAIL |h - 0.000| 0.000).2 := by
    rw [snapToRealisticValue, HEIGHT_STEPS_eq_cons, snapAux_cons, if_pos h0]
  obtain ⟨h1, h2, l₁, l₂, hdec, hl₁, hl₂⟩ := snapAux_invariant h HEIGHT_STEPS_TAIL 0.000
  refine ⟨l₁, l₂, ?_, ?_, ?_⟩
  · rw [HEIGHT_STEPS_eq_cons, hdec, hrw]
  · intro x hx; rw [hrw, ← h1]; exact hl₁ x hx
  · intro x hx; rw [hrw, ← h1]; exact hl₂ x hx

/-- Membership part of the snapping contract. -/
lemma snap_mem (h : ℚ) (hh : |h| < 1000) : snapToRealisticValue h ∈ HEIGHT_STEPS := by
  obtain ⟨l₁, l₂, hdec, -, -⟩ := snap_decomp h hh
  rw [hdec]
  exact List.mem_append.mpr (Or.inr (List.mem_cons_self _ _))

/-- Minimality part of the snapping contract. -/
lemma snap_min (h : ℚ) (hh : |h| < 1000) :
    ∀ v ∈ HEIGHT_STEPS, |snapToRealisticValue h - h| ≤ |v - h| := by
  obtain ⟨l₁, l₂, hdec, hl₁, hl₂⟩ := snap_decomp h hh
  intro v hv
  rw [hdec] at hv
  rw [abs_sub_comm (snapToRealisticValue h) h, abs_sub_comm v h]
  rcases List.mem_append.mp hv with hv | hv
  · exact le_of_lt (hl₁ v hv)
  · rcases List.mem_cons.mp hv with hv | hv
    · rw [hv]
    · exact hl₂ v hv

/-- Every lattice entry is non-negative. -/
lemma HEIGHT_STEPS_nonneg : ∀ v ∈ HEIGHT_STEPS, 0 ≤ v := by
  intro v hv
  simp only [HEIGHT_STEPS, List.mem_cons, List.not_mem_nil, or_false] at hv
  rcases hv with rfl | rfl | rfl | rfl | rfl | rfl | rfl | rfl |
    rfl | rfl | rfl | rfl | rfl | rfl | rfl | rfl <;> norm_num

/-- The Arduino `constrain` macro lands in the target interval. -/
lemma constrain_mem (x lo hi : ℚ) (hlohi : lo ≤ hi) :
    lo ≤ constrain x lo hi ∧ constrain x lo hi ≤ hi := by
  unfold constrain
  split_ifs with h1 h2
  · exact ⟨le_refl _, hlohi⟩
  · exact ⟨hlohi, le_refl _⟩
  · exact ⟨not_lt.mp h1, not_lt.mp h2⟩

/-- The clamped height mapping always lands in `[0, H_MAX_METERS]`. -/
lemma mapToHeight_bounds (f : ℚ) : 0 ≤ mapToHeight f ∧ mapToHeight f ≤ H_MAX_METERS := by
  obtain ⟨hlo, hhi⟩ := constrain_mem f ((SENSOR_RAW_MIN : ℤ) : ℚ) ((SENSOR_RAW_MAX : ℤ) : ℚ)
    (by norm_num [SENSOR_RAW_MIN, SENSOR_RAW_MAX])
  simp only [mapToHeight, mapToHeightWith, SENSOR_RAW_MIN, SENSOR_RAW_MAX] at *
  norm_num at hlo hhi ⊢
  have hnum : 0 ≤ constrain f 510 9230 - 510 := by linarith
  have hq : (0 : ℚ) ≤ H_MAX_METERS := by norm_num [H_MAX_METERS]
  constructor
  · exact mul_nonneg (div_nonneg hnum (by norm_num)) hq
  · have hle1 : (constrain f 510 9230 - 510) / 8720 ≤ 1 := by
      rw [div_le_one (by norm_num : (0:ℚ) < 8720)]
      linarith
    exact mul_le_of_le_one_left hq hle1

/-- The mapped height is well inside the snapping radius of the lattice. -/
lemma mapToHeight_abs_lt (f : ℚ) : |mapToHeight f| < 1000 := by
  obtain ⟨h0, h1⟩ := mapToHeight_bounds f
  rw [abs_of_nonneg h0]
  calc mapToHeight f ≤ H_MAX_METERS := h1
  _ < 1000 := by norm_num [H_MAX_METERS]

/-- Evaluation of one loop iteration on a reading that validates. -/
lemma loopCycle_valid (s : LoopState) (raw : ℤ)
    (h : validateReading s.filteredReading raw = true) :
    loopCycle s raw =
      (⟨EMA_ALPHA * (raw : ℚ) + (1 - EMA_ALPHA) * s.filteredReading,
        snapToRealisticValue (mapToHeight (EMA_ALPHA * (raw : ℚ) + (1 - EMA_ALPHA) * s.filteredReading)),
        0, false⟩,
       ⟨true,
        mapToHeight (EMA_ALPHA * (raw : ℚ) + (1 - EMA_ALPHA) * s.filteredReading),
        snapToRealisticValue (mapToHeight (EMA_ALPHA * (raw : ℚ) + (1 - EMA_ALPHA) * s.filteredReading)),
        if DENSITY_DIFF * GRAVITY * snapToRealisticValue (mapToHeight (EMA_ALPHA * (raw : ℚ) + (1 - EMA_ALPHA) * s.filteredReading)) < 0 then 0
        else DENSITY_DIFF * GRAVITY * snapToRealisticValue (mapToHeight (EMA_ALPHA * (raw : ℚ) + (1 - EMA_ALPHA) * s.filteredReading))⟩) := by
  simp only [loopCycle, h, if_true]

/-- Evaluation of one loop iteration on a reading that fails validation. -/
lemma loopCycle_invalid (s : LoopState) (raw : ℤ)
    (h : validateReading s.filteredReading raw = false) :
    loopCycle s raw =
      (⟨s.filteredReading, s.lastValidHeight, s.failureCount + 1,
        s.inFallbackMode || decide (s.failureCount + 1 ≥ MAX_FAILURES)⟩,
       ⟨false, s.lastValidHeight, s.lastValidHeight,
        if DENSITY_DIFF * GRAVITY * s.lastValidHeight < 0 then 0
        else DENSITY_DIFF * GRAVITY * s.lastValidHeight⟩) := by
  simp only [loopCycle, h, Bool.false_eq_true, if_false]

/-- Unfolding of `run` on a cons cell. -/
lemma run_cons (s : LoopState) (r : ℤ) (rest : List ℤ) :
    run s (r :: rest) = run (step s r) rest := rfl

/-- Characterization of a streak of invalid readings: the filter and the
held height are untouched, the failure counter adds the streak length, and
fallback mode is on exactly when it was already on or at least one reading
was processed and the counter has reached `MAX_FAILURES`. -/
lemma run_invalid (raws : List ℤ) : ∀ s : LoopState,
    (∀ r ∈ raws, validateReading s.filteredReading r = false) →
    (run s raws).filteredReading = s.filteredReading ∧
    (run s raws).lastValidHeight = s.lastValidHeight ∧
    (run s raws).failureCount = s.failureCount + raws.length ∧
    ((run s raws).inFallbackMode = true ↔
      (s.inFallbackMode = true ∨
        (1 ≤ raws.length ∧ MAX_FAILURES ≤ s.failureCount + raws.length))) := by
  induction raws with
  | nil =>
    intro s _
    refine ⟨rfl, rfl, by simp [run], ?_⟩
    simp [run]
  | cons r rest ih =>
    intro s hall
    have hr : validateReading s.filteredReading r = false := hall r (List.mem_cons_self r rest)
    have hstep : step s r = ⟨s.filteredReading, s.lastValidHeight, s.failureCount + 1,
        s.inFallbackMode || decide (s.failureCount + 1 ≥ MAX_FAILURES)⟩ := by
      rw [step, loopCycle_invalid s r hr]
    have hall1 : ∀ x ∈ rest, validateReading (step s r).filteredReading x = false := by
      intro x hx
      rw [hstep]
      exact hall x (List.mem_cons_of_mem _ hx)
    obtain ⟨i1, i2, i3, i4⟩ := ih (step s r) hall1
    rw [run_cons]
    refine ⟨by rw [i1, hstep], by rw [i2, hstep], ?_, ?_⟩
    · rw [i3, hstep]
      simp only [List.length_cons]
      push_cast
      ring
    · rw [i4, hstep]
      simp only [Bool.or_eq_true, decide_eq_true_eq, List.length_cons, MAX_FAILURES]
      cases hb : s.inFallbackMode <;> simp
      all_goals omega

/-- Step preservation of the held-height lattice invariant. -/
lemma step_lastValid_mem (s : LoopState) (r : ℤ)
    (hs : s.lastValidHeight ∈ HEIGHT_STEPS) :
    (step s r).lastValidHeight ∈ HEIGHT_STEPS := by
  by_cases hv : validateReading s.filteredReading r = true
  · rw [step, loopCycle_valid s r hv]
    exact snap_mem _ (mapToHeight_abs_lt _)
  · rw [step, loopCycle_invalid s r (Bool.eq_false_iff.mpr hv)]
    exact hs

/-- Run preservation of the held-height lattice invariant. -/
lemma run_lastValid_mem (raws : List ℤ) : ∀ s : LoopState,
    s.lastValidHeight ∈ HEIGHT_STEPS → (run s raws).lastValidHeight ∈ HEIGHT_STEPS := by
  induction raws with
  | nil => intro s hs; exact hs
  | cons r rest ih =>
    intro s hs
    rw [run_cons]
    exact ih (step s r) (step_lastValid_mem s r hs)

/-- In every reachable state the held height is a lattice element. -/
lemma reachable_lastValid_mem (s : LoopState) (hs : Reachable s) :
    s.lastValidHeight ∈ HEIGHT_STEPS := by
  obtain ⟨f0, raws, rfl⟩ := hs
  apply run_lastValid_mem
  show (0 : ℚ) ∈ HEIGHT_STEPS
  rw [HEIGHT_STEPS_eq_cons, show (0.000 : ℚ) = 0 from by norm_num]
  exact List.mem_cons_self _ _

/-- In every cycle started from a lattice-invariant state, the reported
snapped height is a lattice element. -/
lemma loopCycle_snap_mem (s : LoopState) (r : ℤ)
    (hs : s.lastValidHeight ∈ HEIGHT_STEPS) :
    (loopCycle s r).2.heightSnapped ∈ HEIGHT_STEPS := by
  by_cases hv : validateReading s.filteredReading r = true
  · rw [loopCycle_valid s r hv]
    exact snap_mem _ (mapToHeight_abs_lt _)
  · rw [loopCycle_invalid s r (Bool.eq_false_iff.mpr hv)]
    exact hs

/-- The reported pressure is the clamped product of the density
difference, gravity and the reported snapped height, in both branches. -/
lemma loopCycle_pressure (s : LoopState) (r : ℤ) :
    (loopCycle s r).2.pressureDiff =
      if DENSITY_DIFF * GRAVITY * (loopCycle s r).2.heightSnapped < 0 then 0
      else DENSITY_DIFF * GRAVITY * (loopCycle s r).2.heightSnapped := by
  by_cases hv : validateReading s.filteredReading r = true
  · rw [loopCycle_valid s r hv]
  · rw [loopCycle_invalid s r (Bool.eq_false_iff.mpr hv)]

/-- The pre-computed flow constant is non-negative. -/
lemma FLOW_CONSTANT_nonneg : 0 ≤ FLOW_CONSTANT := by
  unfold FLOW_CONSTANT
  apply mul_nonneg (mul_nonneg ?_ ?_) (Real.sqrt_nonneg _)
  · norm_num [DISCHARGE_COEFF]
  · unfold AREA_2
    positivity

/-- The density difference of the shipped configuration is positive. -/
lemma DENSITY_DIFF_pos : (0 : ℚ) < DENSITY_DIFF := by
  norm_num [DENSITY_DIFF, FLUID_DENSITY, MANOMETER_DENSITY]

/-- The product of density difference and gravity is positive. -/
lemma DG_pos : (0 : ℚ) < DENSITY_DIFF * GRAVITY := by
  norm_num [DENSITY_DIFF, FLUID_DENSITY, MANOMETER_DENSITY, GRAVITY]

/-- C1: starting from a state with `failureCount = 0` and
`inFallbackMode = false`, a streak of invalid readings drives the failure
counter to the streak length and raises fallback mode exactly when the
streak reaches `MAX_FAILURES = 5` readings, never before; and any single
valid reading, from any state, resets the counter to `0` and returns the
controller to Normal mode. -/
theorem fallback_transitions_C1 :
    MAX_FAILURES = 5 ∧
    (∀ s : LoopState, s.failureCount = 0 → s.inFallbackMode = false →
      ∀ raws : List ℤ, (∀ r ∈ raws, validateReading s.filteredReading r = false) →
        (run s raws).failureCount = raws.length ∧
        ((run s raws).inFallbackMode = true ↔ MAX_FAILURES ≤ (raws.length : ℤ))) ∧
    (∀ s : LoopState, ∀ raw : ℤ, validateReading s.filteredReading raw = true →
      (step s raw).failureCount = 0 ∧ (step s raw).inFallbackMode = false) := by
  refine ⟨rfl, ?_, ?_⟩
  · intro s hc hm raws hall
    obtain ⟨-, -, h3, h4⟩ := run_invalid raws s hall
    constructor
    · rw [h3, hc, zero_add]
    · rw [h4, hc, hm, zero_add]
      simp only [Bool.false_eq_true, false_or, MAX_FAILURES]
      constructor
      · rintro ⟨-, hge⟩; exact hge
      · intro hge
        exact ⟨by omega, hge⟩
  · intro s raw hv
    rw [step, loopCycle_valid s raw hv]
    exact ⟨rfl, rfl⟩

/-- C1 witness: five consecutive `-1` sentinel readings activate fallback,
four do not, and a valid reading resets the controller. -/
theorem fallback_transitions_C1_witness :
    (run (initState 0) [-1, -1, -1, -1]).inFallbackMode = false ∧
    (run (initState 0) [-1, -1, -1, -1, -1]).inFallbackMode = true ∧
    (run (initState 0) [-1, -1, -1, -1, -1]).failureCount = 5 ∧
    (step (initState 0) 600).failureCount = 0 ∧
    (step (initState 0) 600).inFallbackMode = false := by
  have h4 := fallback_transitions_C1.2.1 (initState 0) rfl rfl
    [-1, -1, -1, -1] (by decide)
  have h5 := fallback_transitions_C1.2.1 (initState 0) rfl rfl
    [-1, -1, -1, -1, -1] (by decide)
  have hv := fallback_transitions_C1.2.2 (initState 0) 600 (by decide)
  refine ⟨?_, ?_, ?_, hv.1, hv.2⟩
  · rcases Bool.eq_false_or_eq_true ((run (initState 0) [-1, -1, -1, -1]).inFallbackMode)
      with hb | hb
    · have := h4.2.mp hb
      norm_num [MAX_FAILURES] at this
    · exact hb
  · exact h5.2.mpr (by norm_num [MAX_FAILURES])
  · rw [h5.1]; rfl

/-- C2: in every cycle whose reading is invalid, the reported snapped and
calculated heights both equal the held `lastValidHeight`, and the held
value is unchanged, both for one cycle and across any streak of invalid
cycles; on a valid cycle the held value is overwritten with the freshly
snapped height. -/
theorem held_height_C2 :
    (∀ s : LoopState, ∀ raw : ℤ, validateReading s.filteredReading raw = false →
      (loopCycle s raw).2.heightSnapped = s.lastValidHeight ∧
      (loopCycle s raw).2.heightCalculated = s.lastValidHeight ∧
      (loopCycle s raw).1.lastValidHeight = s.lastValidHeight) ∧
    (∀ s : LoopState, ∀ raw : ℤ, validateReading s.filteredReading raw = true →
      (loopCycle s raw).1.lastValidHeight = (loopCycle s raw).2.heightSnapped) ∧
    (∀ s : LoopState, ∀ raws : List ℤ,
      (∀ r ∈ raws, validateReading s.filteredReading r = false) →
      (run s raws).lastValidHeight = s.lastValidHeight) := by
  refine ⟨?_, ?_, ?_⟩
  · intro s raw hv
    rw [loopCycle_invalid s raw hv]
    exact ⟨rfl, rfl, rfl⟩
  · intro s raw hv
    rw [loopCycle_valid s raw hv]
  · intro s raws hall
    exact (run_invalid raws s hall).2.1

/-- C2 witness: with a held height of `0.01`, an invalid sentinel reading
reports `0.01` for both heights and leaves the held value in place across
two invalid cycles. -/
theorem held_height_C2_witness :
    (loopCycle ⟨0, 0.01, 0, false⟩ (-1)).2.heightSnapped = 0.01 ∧
    (loopCycle ⟨0, 0.01, 0, false⟩ (-1)).2.heightCalculated = 0.01 ∧
    (run ⟨0, 0.01, 0, false⟩ [-1, -1]).lastValidHeight = 0.01 := by
  have h1 := held_height_C2.1 ⟨0, 0.01, 0, false⟩ (-1) (by decide)
  have h2 := held_height_C2.2.2 ⟨0, 0.01, 0, false⟩ [-1, -1] (by decide)
  exact ⟨h1.1, h1.2.1, h2⟩

/-- Evaluation of the maximum-jump threshold
`(SENSOR_RAW_MAX - SENSOR_RAW_MIN) * 0.5` cast to `long`. -/
lemma maxDelta_eval :
    truncToLong (((SENSOR_RAW_MAX - SENSOR_RAW_MIN : ℤ) : ℚ) * 0.5) = 4360 := by
  rw [show (((SENSOR_RAW_MAX - SENSOR_RAW_MIN : ℤ) : ℚ) * 0.5) = ((4360 : ℤ) : ℚ) from by
    norm_num [SENSOR_RAW_MIN, SENSOR_RAW_MAX]]
  rw [truncToLong, if_pos (by norm_num), Int.floor_intCast]

/-- C3 counterexample: with the filter state at its startup value `0`, the
raw reading `15000` is accepted by the firmware although it violates the
unconditional rate-of-change rule stated by the spec
(`|15000 - 0| > 0.5 * (9230 - 510) = 4360`). -/
theorem validate_C3_counterexample :
    validateReading 0 15000 = true ∧ validateReadingSpec 0 15000 = false := by
  constructor
  · decide
  · simp only [validateReadingSpec, decide_eq_false_iff_not]
    push_neg
    intro _ _
    rw [abs_ite_eval]
    norm_num [SENSOR_RAW_MIN, SENSOR_RAW_MAX]

/-- C3 (amended): `validateReading` accepts a raw reading iff it lies
within the hardware envelope `[EXTREME_MIN, EXTREME_MAX] = [0, 15000]`
and, only when the current filter state is positive, the jump from the
truncated filter value does not exceed
`0.5 * (SENSOR_RAW_MAX - SENSOR_RAW_MIN) = 4360`; when the filter state
is not positive the jump check is skipped entirely. -/
theorem validate_characterization_C3 (filteredReading : ℚ) (rawValue : ℤ) :
    validateReading filteredReading rawValue = true ↔
      (EXTREME_MIN ≤ rawValue ∧ rawValue ≤ EXTREME_MAX ∧
        (0 < filteredReading → |rawValue - truncToLong filteredReading| ≤ 4360)) := by
  simp only [validateReading, validateReadingWith, maxDelta_eval]
  split_ifs with hA hB hC
  · simp only [Bool.false_eq_true, false_iff]
    rintro ⟨hmin, hmax, -⟩
    rcases hA with h | h
    · exact absurd h (not_lt.mpr hmin)
    · exact absurd h (not_lt.mpr hmax)
  · simp only [Bool.false_eq_true, false_iff]
    rintro ⟨-, -, hjump⟩
    exact absurd (hjump hB) (not_le.mpr hC)
  · push_neg at hA
    simp only [true_iff]
    exact ⟨hA.1, hA.2, fun _ => not_lt.mp hC⟩
  · push_neg at hA
    simp only [true_iff]
    exact ⟨hA.1, hA.2, fun hf => absurd hf hB⟩

/-- C3 witness: a reading near the filter state is accepted, and the
characterization certifies it. -/
theorem validate_characterization_C3_witness : validateReading 4870 5000 = true := by
  apply (validate_characterization_C3 4870 5000).mpr
  refine ⟨by decide, by decide, fun _ => ?_⟩
  rw [show (4870 : ℚ) = ((4870 : ℤ) : ℚ) from by norm_num,
    truncToLong, if_pos (by norm_num), Int.floor_intCast]
  decide

/-- C4 counterexample: at input `2000` every lattice entry is at distance
`≥ 1000`, the scan's initial sentinel is never beaten, and the firmware
returns the input itself, which is not a lattice element. -/
theorem snap_C4_counterexample :
    snapToRealisticValue 2000 = 2000 ∧ (2000 : ℚ) ∉ HEIGHT_STEPS := by
  constructor
  · norm_num [snapToRealisticValue, snapAux, HEIGHT_STEPS, abs_ite_eval]
  · norm_num [HEIGHT_STEPS]

/-- C4 (amended): for every input height within distance `1000` of the
lattice head `0` — in particular for every height in `[0, H_MAX_METERS]` —
`snapToRealisticValue` returns a lattice element of minimal absolute
difference, and on a tie the first (lowest-index) lattice entry wins:
every entry strictly before the returned one is strictly farther away. -/
theorem snap_lattice_C4 (h : ℚ) (hh : |h| < 1000) :
    snapToRealisticValue h ∈ HEIGHT_STEPS ∧
    (∀ v ∈ HEIGHT_STEPS, |snapToRealisticValue h - h| ≤ |v - h|) ∧
    ∃ l₁ l₂, HEIGHT_STEPS = l₁ ++ snapToRealisticValue h :: l₂ ∧
      ∀ v ∈ l₁, |snapToRealisticValue h - h| < |v - h| := by
  refine ⟨snap_mem h hh, snap_min h hh, ?_⟩
  obtain ⟨l₁, l₂, hdec, hl₁, -⟩ := snap_decomp h hh
  refine ⟨l₁, l₂, hdec, ?_⟩
  intro v hv
  rw [abs_sub_comm (snapToRealisticValue h) h, abs_sub_comm v h]
  exact hl₁ v hv

/-- C4 witness: `0.037` snaps to the lattice element `0.040`. -/
theorem snap_lattice_C4_witness :
    snapToRealisticValue 0.037 ∈ HEIGHT_STEPS ∧
    ∀ v ∈ HEIGHT_STEPS, |snapToRealisticValue 0.037 - 0.037| ≤ |v - 0.037| := by
  have h := snap_lattice_C4 0.037 (by rw [abs_ite_eval]; norm_num)
  exact ⟨h.1, h.2.1⟩

/-- C5: `calculateFlowRate` returns exactly `0` below the minimum-flow
threshold `MIN_FLOW_HEIGHT = 0.001`, and is monotonically non-decreasing
on heights at or above the threshold. -/
theorem flow_threshold_mono_C5 :
    (∀ h : ℚ, h < MIN_FLOW_HEIGHT → calculateFlowRate h = 0) ∧
    (∀ h₁ h₂ : ℚ, MIN_FLOW_HEIGHT ≤ h₁ → h₁ ≤ h₂ →
      calculateFlowRate h₁ ≤ calculateFlowRate h₂) := by
  constructor
  · intro h hlt
    simp only [calculateFlowRate, if_pos hlt]
  · intro h₁ h₂ hm hle
    have hm₂ : MIN_FLOW_HEIGHT ≤ h₂ := le_trans hm hle
    have hpos : (0 : ℚ) ≤ MIN_FLOW_HEIGHT := by norm_num [MIN_FLOW_HEIGHT]
    have h1p : (0 : ℚ) ≤ DENSITY_DIFF * GRAVITY * h₁ :=
      mul_nonneg DG_pos.le (le_trans hpos hm)
    have h2p : (0 : ℚ) ≤ DENSITY_DIFF * GRAVITY * h₂ :=
      mul_nonneg DG_pos.le (le_trans hpos hm₂)
    simp only [calculateFlowRate, if_neg (not_lt.mpr hm), if_neg (not_lt.mpr hm₂),
      if_neg (not_lt.mpr h1p), if_neg (not_lt.mpr h2p)]
    apply mul_le_mul_of_nonneg_right ?_ (by norm_num : (0 : ℝ) ≤ 1000)
    apply mul_le_mul_of_nonneg_left ?_ FLOW_CONSTANT_nonneg
    apply Real.sqrt_le_sqrt
    exact_mod_cast mul_le_mul_of_nonneg_left hle DG_pos.le

/-- C5 witness: below-threshold heights report exactly zero flow, and the
flow at `0.001` does not exceed the flow at `1`. -/
theorem flow_threshold_mono_C5_witness :
    calculateFlowRate 0.0005 = 0 ∧ calculateFlowRate 0.001 ≤ calculateFlowRate 1 := by
  constructor
  · exact flow_threshold_mono_C5.1 0.0005 (by norm_num [MIN_FLOW_HEIGHT])
  · exact flow_threshold_mono_C5.2 0.001 1 (by norm_num [MIN_FLOW_HEIGHT]) (by norm_num)

/-- C6: the height mapping sends the calibration minimum `510` to height
`0.000` and the calibration maximum `9230` to `0.145 = H_MAX_METERS`. -/
theorem height_endpoints_C6 :
    mapToHeight 510 = 0 ∧ mapToHeight 9230 = 0.145 ∧ H_MAX_METERS = 0.145 := by
  refine ⟨?_, ?_, rfl⟩ <;>
    norm_num [mapToHeight, mapToHeightWith, constrain, SENSOR_RAW_MIN, SENSOR_RAW_MAX,
      H_MAX_METERS]

/-- C7 counterexample: during filter stabilization an out-of-envelope
reading (`20000 > EXTREME_MAX`, hence invalid) nevertheless updates the
EMA filter, because `stabilizeFilter` only holds the value on negative
readings. -/
theorem filter_hold_C7_counterexample :
    validateReading 4870 20000 = false ∧ stabilizeFilter 4870 [20000] ≠ 4870 := by
  constructor
  · decide
  · norm_num [stabilizeFilter, stabilizeStep, EMA_ALPHA]

/-- C7 (amended): in the main loop, every invalid-reading cycle leaves the
EMA filter state unchanged and the update runs only on accepted readings;
during filter stabilization, however, the filter is held only for negative
(error-sentinel) readings and is updated for every reading `≥ 0`,
regardless of the envelope and jump rules. -/
theorem filter_hold_C7 :
    (∀ s : LoopState, ∀ raw : ℤ, validateReading s.filteredReading raw = false →
      (loopCycle s raw).1.filteredReading = s.filteredReading) ∧
    (∀ s : LoopState, ∀ raw : ℤ, validateReading s.filteredReading raw = true →
      (loopCycle s raw).1.filteredReading =
        EMA_ALPHA * (raw : ℚ) + (1 - EMA_ALPHA) * s.filteredReading) ∧
    (∀ f : ℚ, ∀ reading : ℤ, reading < 0 → stabilizeStep f reading = f) ∧
    (∀ f : ℚ, ∀ reading : ℤ, 0 ≤ reading →
      stabilizeStep f reading = EMA_ALPHA * (reading : ℚ) + (1 - EMA_ALPHA) * f) := by
  refine ⟨?_, ?_, ?_, ?_⟩
  · intro s raw hv
    rw [loopCycle_invalid s raw hv]
  · intro s raw hv
    rw [loopCycle_valid s raw hv]
  · intro f reading hneg
    rw [stabilizeStep, if_neg (not_le.mpr hneg)]
  · intro f reading hnn
    rw [stabilizeStep, if_pos hnn]

/-- C7 witness: an invalid reading leaves the loop's filter untouched, a
negative stabilization reading is held, and a non-negative one updates. -/
theorem filter_hold_C7_witness :
    (loopCycle ⟨4870, 0, 0, false⟩ 20000).1.filteredReading = 4870 ∧
    stabilizeStep 100 (-5) = 100 ∧
    stabilizeStep 100 20000 = EMA_ALPHA * ((20000 : ℤ) : ℚ) + (1 - EMA_ALPHA) * 100 := by
  refine ⟨filter_hold_C7.1 ⟨4870, 0, 0, false⟩ 20000 (by decide), ?_, ?_⟩
  · exact filter_hold_C7.2.2.1 100 (-5) (by decide)
  · exact filter_hold_C7.2.2.2 100 20000 (by decide)

/-- C8 counterexample: with a degenerate calibration range
`rawMin = rawMax = 510`, startup initialization still proceeds to the
measurement loop (`isSome`), i.e. the firmware performs no fatal
configuration check. -/
theorem startup_guard_C8_counterexample :
    (initializeSystemWith 510 510 100 []).isSome = true := by
  decide

/-- C8 (amended): startup initialization never refuses to proceed, for any
configured calibration range, degenerate or not; for every non-degenerate
configuration with `rawMin < rawMax` the height-mapping division is
well-defined (non-zero denominator) and sends the calibration maximum to
`H_MAX_METERS`. -/
theorem startup_guard_C8 :
    (∀ rawMin rawMax initialValue : ℤ, ∀ samples : List ℤ,
      (initializeSystemWith rawMin rawMax initialValue samples).isSome = true) ∧
    (∀ rawMin rawMax : ℤ, rawMin < rawMax →
      ((rawMax : ℚ) - (rawMin : ℚ)) ≠ 0 ∧
      mapToHeightWith rawMin rawMax H_MAX_METERS ((rawMax : ℤ) : ℚ) = H_MAX_METERS) := by
  constructor
  · intro rawMin rawMax initialValue samples
    rfl
  · intro rawMin rawMax hlt
    have hle : ((rawMin : ℚ)) ≤ ((rawMax : ℚ)) := by exact_mod_cast hlt.le
    have hne : ((rawMax : ℚ) - (rawMin : ℚ)) ≠ 0 := sub_ne_zero.mpr (by exact_mod_cast hlt.ne')
    refine ⟨hne, ?_⟩
    rw [mapToHeightWith, constrain, if_neg (not_lt.mpr hle), if_neg (lt_irrefl _),
      show ((rawMax - rawMin : ℤ) : ℚ) = (rawMax : ℚ) - (rawMin : ℚ) from by push_cast; ring,
      div_self hne, one_mul]

/-- C8 witness: the shipped configuration `510 < 9230` has a well-defined
mapping, and its startup proceeds. -/
theorem startup_guard_C8_witness :
    (initializeSystemWith 510 9230 100 []).isSome = true ∧
    (((9230 : ℤ) : ℚ) - ((510 : ℤ) : ℚ)) ≠ 0 ∧
    mapToHeightWith 510 9230 H_MAX_METERS (((9230 : ℤ) : ℚ)) = H_MAX_METERS := by
  have h2 := startup_guard_C8.2 510 9230 (by decide)
  exact ⟨startup_guard_C8.1 510 9230 100 [], h2.1, h2.2⟩

/-- C9: the held height starts at `0`, which is the first lattice entry;
in every reachable state it is a lattice element; in every cycle the
reported snapped height is a lattice element; on a valid reading the
calculated height is clamped into `[0, H_MAX_METERS]` before snapping;
and on an invalid reading the held lattice value is re-reported. -/
theorem lattice_invariant_C9 :
    HEIGHT_STEPS.head? = some 0 ∧
    (∀ f0 : ℚ, (initState f0).lastValidHeight = 0) ∧
    (∀ s : LoopState, Reachable s →
      s.lastValidHeight ∈ HEIGHT_STEPS ∧
      ∀ raw : ℤ,
        (loopCycle s raw).2.heightSnapped ∈ HEIGHT_STEPS ∧
        (validateReading s.filteredReading raw = true →
          0 ≤ (loopCycle s raw).2.heightCalculated ∧
          (loopCycle s raw).2.heightCalculated ≤ H_MAX_METERS) ∧
        (validateReading s.filteredReading raw = false →
          (loopCycle s raw).2.heightSnapped = s.lastValidHeight)) := by
  refine ⟨?_, fun _ => rfl, ?_⟩
  · rw [HEIGHT_STEPS_eq_cons]
    norm_num
  · intro s hs
    have hmem := reachable_lastValid_mem s hs
    refine ⟨hmem, fun raw => ⟨loopCycle_snap_mem s raw hmem, ?_, ?_⟩⟩
    · intro hv
      rw [loopCycle_valid s raw hv]
      exact mapToHeight_bounds _
    · intro hv
      rw [loopCycle_invalid s raw hv]

/-- C9 witness: the initial state is reachable, its held height is the
lattice head, and a cycle on a valid reading reports a lattice element. -/
theorem lattice_invariant_C9_witness :
    (initState 0).lastValidHeight ∈ HEIGHT_STEPS ∧
    (loopCycle (initState 0) 600).2.heightSnapped ∈ HEIGHT_STEPS := by
  have h := (lattice_invariant_C9.2.2 (initState 0) ⟨0, [], rfl⟩)
  exact ⟨h.1, (h.2 600).1⟩

/-- C10: in every cycle from a reachable state the reported snapped height
is non-negative, the density difference is positive, so the pressure
product is non-negative: the loop's negative-pressure clamp is a no-op,
and above the flow threshold `calculateFlowRate` reduces to the unclamped
formula, with the square root applied to a non-negative argument. -/
theorem pressure_nonneg_C10 (s : LoopState) (hs : Reachable s) (raw : ℤ) :
    0 < DENSITY_DIFF ∧
    0 ≤ (loopCycle s raw).2.heightSnapped ∧
    0 ≤ DENSITY_DIFF * GRAVITY * (loopCycle s raw).2.heightSnapped ∧
    (0 : ℝ) ≤ ((DENSITY_DIFF * GRAVITY * (loopCycle s raw).2.heightSnapped : ℚ) : ℝ) ∧
    (loopCycle s raw).2.pressureDiff =
      DENSITY_DIFF * GRAVITY * (loopCycle s raw).2.heightSnapped ∧
    (¬ (loopCycle s raw).2.heightSnapped < MIN_FLOW_HEIGHT →
      calculateFlowRate (loopCycle s raw).2.heightSnapped =
        FLOW_CONSTANT *
          Real.sqrt (((DENSITY_DIFF * GRAVITY * (loopCycle s raw).2.heightSnapped : ℚ) : ℝ)) *
          1000) := by
  have hmem := loopCycle_snap_mem s raw (reachable_lastValid_mem s hs)
  have hh : 0 ≤ (loopCycle s raw).2.heightSnapped := HEIGHT_STEPS_nonneg _ hmem
  have hp : 0 ≤ DENSITY_DIFF * GRAVITY * (loopCycle s raw).2.heightSnapped :=
    mul_nonneg DG_pos.le hh
  refine ⟨DENSITY_DIFF_pos, hh, hp, by exact_mod_cast hp, ?_, ?_⟩
  · rw [loopCycle_pressure, if_neg (not_lt.mpr hp)]
  · intro hmin
    rw [calculateFlowRate, if_neg hmin, if_neg (not_lt.mpr hp)]

/-- C10 witness: the first cycle from the reachable initial state has
non-negative snapped height and an unclamped pressure report. -/
theorem pressure_nonneg_C10_witness :
    0 ≤ (loopCycle (initState 0) 9000).2.heightSnapped ∧
    (loopCycle (initState 0) 9000).2.pressureDiff =
      DENSITY_DIFF * GRAVITY * (loopCycle (initState 0) 9000).2.heightSnapped := by
  have h := pressure_nonneg_C10 (initState 0) ⟨0, [], rfl⟩ 9000
  exact ⟨h.2.1, h.2.2.2.2.1⟩

end SmartOrifice
